import Mathlib

/-!
# Verification of the `slash` command framework core

A shallow embedding of the repository's core data model and operations:

* `src/reject.rs` — the rejection algebra (`Rejection`, `Rejections`,
  `combine`, `find`);
* `src/context.rs` — the per-invocation ambient context scope
  (`set`, `is_set`, `with`, modelled by explicit state passing over the
  scoped thread-local cell of the `scoped_tls` crate);
* `src/command.rs` — the chat-input command builder and its setters;
* `src/filters/arg.rs` — the string argument filter (its body is a
  `todo!()` stub in the source, so its evaluation is modelled from the
  spec);
* `src/model/snowflake.rs` — snowflake construction and timestamp
  extraction over `u64` arithmetic (modelled as `Nat` with explicit
  `% 2 ^ 64` where wrapping matters).
-/

set_option autoImplicit false

/-! ## Rejection algebra (`src/reject.rs`) -/

/-- Embeds `pub(crate) struct DiscordApiError {}` — the payload of the one
known cause. -/
structure DiscordApiError where
  mk ::
deriving DecidableEq, Repr

/-- Embeds `enum Known { DiscordApiError(DiscordApiError) }`. -/
inductive Known where
  | discordApiError (e : DiscordApiError)
deriving DecidableEq, Repr

/-- The type tag (Rust `TypeId`) of `DiscordApiError`, the downcast target of
`Known::inner_as_any`. Tags model `TypeId`s: distinct concrete cause types
have distinct tags. -/
def discordApiErrorTag : Nat := 0

/-- The tag of the payload inside a `Known` cause, i.e. what
`Known::inner_as_any(..).downcast_ref::<T>()` succeeds on. -/
def Known.tag : Known → Nat
  | .discordApiError _ => discordApiErrorTag

/-- Embeds a `Box<dyn Cause>` holding a user's `Reject` type: an opaque
payload together with the `TypeId` tag that `downcast_ref` matches on. -/
structure CustomCause where
  tag : Nat
  payload : String
deriving DecidableEq, Repr

/-- Embeds `enum Rejections { Known(..), Custom(..), Combined(.., ..) }`. -/
inductive Rejections where
  | known (k : Known)
  | custom (c : CustomCause)
  | combined (a b : Rejections)
deriving DecidableEq, Repr

/-- Embeds `enum Reason { NotFound, Other(Box<Rejections>) }`. -/
inductive Reason where
  | notFound
  | other (rs : Rejections)
deriving DecidableEq, Repr

/-- Embeds `pub struct Rejection { reason: Reason }`. -/
structure Rejection where
  reason : Reason
deriving DecidableEq, Repr

/-- The cause value a successful `find::<T>` returns a reference to: either
the `DiscordApiError` inside a known cause or a custom cause. -/
inductive CauseVal where
  | knownCause (e : DiscordApiError)
  | customCause (c : CustomCause)
deriving DecidableEq, Repr

/-- The `NotFound` rejection (spec's `reject_not_found()`). -/
def Rejection.not_found : Rejection := ⟨Reason.notFound⟩

/-- Embeds `Rejection::known`. -/
def Rejection.known (k : Known) : Rejection :=
  ⟨Reason.other (Rejections.known k)⟩

/-- Embeds `Rejection::custom` (and thereby `reject::custom`). -/
def Rejection.custom (c : CustomCause) : Rejection :=
  ⟨Reason.other (Rejections.custom c)⟩

/-- Embeds `Rejection::is_not_found`. -/
def Rejection.is_not_found (r : Rejection) : Bool :=
  match r.reason with
  | .notFound => true
  | .other _ => false

/-- Embeds `Rejections::find::<T>`: first match in document order, searching
for the type tag `t`; `Combined` searches the left subtree, then the right
(`a.find().or_else(|| b.find())`). -/
def Rejections.find : Rejections → Nat → Option CauseVal
  | .known (.discordApiError e), t =>
      if discordApiErrorTag = t then some (CauseVal.knownCause e) else none
  | .custom c, t =>
      if c.tag = t then some (CauseVal.customCause c) else none
  | .combined a b, t =>
      match a.find t with
      | some cv => some cv
      | none => b.find t

/-- Embeds `Rejection::find::<T>`: searches the cause-set when the reason is
`Other`, returns `None` on `NotFound`. -/
def Rejection.find (r : Rejection) (t : Nat) : Option CauseVal :=
  match r.reason with
  | .notFound => none
  | .other rs => rs.find t

/-- Embeds `<Rejection as CombineRejection<Rejection>>::combine` from
`src/reject.rs` lines 331–350. -/
def Rejection.combine (a b : Rejection) : Rejection :=
  match a.reason, b.reason with
  | .other left, .other right =>
      ⟨Reason.other (Rejections.combined left right)⟩
  | .other o, .notFound => ⟨Reason.other o⟩
  | .notFound, .other o => ⟨Reason.other o⟩
  | .notFound, .notFound => ⟨Reason.notFound⟩

/-- C1: `NotFound` is a two-sided identity for `combine`: combining the
`NotFound` rejection with any rejection `r`, on either side, yields `r`
unchanged, and combining two `NotFound` rejections yields `NotFound`. -/
theorem combine_not_found_identity (r : Rejection) :
    Rejection.combine Rejection.not_found r = r
      ∧ Rejection.combine r Rejection.not_found = r
      ∧ Rejection.combine Rejection.not_found Rejection.not_found
          = Rejection.not_found := by
  obtain ⟨reason⟩ := r
  cases reason <;> exact ⟨rfl, rfl, rfl⟩

/-- C2: for rejections that each carry a cause-set (neither is `NotFound`),
a tag found in either operand is found in their combination, and presence of
a tag in the combination is insensitive to the combination order; moreover
presence is insensitive to the nesting produced by repeated combination. -/
theorem combine_find_presence (ra rb rc : Rejections) (t u : Nat) :
    ((ra.find t).isSome = true →
        ((Rejection.combine ⟨Reason.other ra⟩ ⟨Reason.other rb⟩).find t).isSome
          = true)
      ∧ ((rb.find u).isSome = true →
        ((Rejection.combine ⟨Reason.other ra⟩ ⟨Reason.other rb⟩).find u).isSome
          = true)
      ∧ (∀ v,
        ((Rejection.combine ⟨Reason.other ra⟩ ⟨Reason.other rb⟩).find v).isSome
          = ((Rejection.combine ⟨Reason.other rb⟩ ⟨Reason.other ra⟩).find
              v).isSome)
      ∧ (∀ v,
        ((Rejection.combine
            (Rejection.combine ⟨Reason.other ra⟩ ⟨Reason.other rb⟩)
            ⟨Reason.other rc⟩).find v).isSome
          = ((Rejection.combine ⟨Reason.other ra⟩
              (Rejection.combine ⟨Reason.other rb⟩ ⟨Reason.other rc⟩)).find
                v).isSome) := by
  refine ⟨?_, ?_, ?_, ?_⟩
  · intro h
    show ((Rejections.combined ra rb).find t).isSome = true
    cases hra : ra.find t with
    | none => rw [hra] at h; simp at h
    | some cv => simp [Rejections.find, hra]
  · intro h
    show ((Rejections.combined ra rb).find u).isSome = true
    cases hra : ra.find u with
    | none => simp [Rejections.find, hra, h]
    | some cv => simp [Rejections.find, hra]
  · intro v
    show ((Rejections.combined ra rb).find v).isSome
      = ((Rejections.combined rb ra).find v).isSome
    cases hra : ra.find v <;> cases hrb : rb.find v <;>
      simp [Rejections.find, hra, hrb]
  · intro v
    show ((Rejections.combined (Rejections.combined ra rb) rc).find v).isSome
      = ((Rejections.combined ra (Rejections.combined rb rc)).find v).isSome
    cases hra : ra.find v <;> cases hrb : rb.find v <;>
      cases hrc : rc.find v <;> simp [Rejections.find, hra, hrb, hrc]

/-- Witness for `combine_find_presence` at two concrete single-cause
rejections with tags 1 and 2. -/
theorem combine_find_presence_witness :
    ((Rejection.combine ⟨Reason.other (Rejections.custom ⟨1, "a"⟩)⟩
        ⟨Reason.other (Rejections.custom ⟨2, "b"⟩)⟩).find 1).isSome = true
      ∧ ((Rejection.combine ⟨Reason.other (Rejections.custom ⟨1, "a"⟩)⟩
        ⟨Reason.other (Rejections.custom ⟨2, "b"⟩)⟩).find 2).isSome = true := by
  have h := combine_find_presence (Rejections.custom ⟨1, "a"⟩)
    (Rejections.custom ⟨2, "b"⟩) (Rejections.custom ⟨3, "c"⟩) 1 2
  exact ⟨h.1 (by rfl), h.2.1 (by rfl)⟩

/-- C7: `find` searches the combine tree depth first in document order: when
both subtrees of a combined rejection contain a matching cause the left
subtree's match is returned; a rejection wrapping a single custom or known
cause of the requested tag returns that cause; and `find` on the `NotFound`
rejection returns `none` for every tag. -/
theorem find_depth_first_order (a b : Rejections) (t : Nat) (c : CustomCause)
    (e : DiscordApiError) :
    ((a.find t).isSome = true → (b.find t).isSome = true →
        Rejection.find ⟨Reason.other (Rejections.combined a b)⟩ t = a.find t)
      ∧ (c.tag = t →
        Rejection.find ⟨Reason.other (Rejections.custom c)⟩ t
          = some (CauseVal.customCause c))
      ∧ Rejection.find ⟨Reason.other (Rejections.known
          (Known.discordApiError e))⟩ discordApiErrorTag
          = some (CauseVal.knownCause e)
      ∧ (∀ u, Rejection.find ⟨Reason.notFound⟩ u = none) := by
  refine ⟨?_, ?_, ?_, fun u => rfl⟩
  · intro ha _
    show (Rejections.combined a b).find t = a.find t
    cases hra : a.find t with
    | none => rw [hra] at ha; simp at ha
    | some cv => simp [Rejections.find, hra]
  · intro hct
    show (Rejections.custom c).find t = some (CauseVal.customCause c)
    simp [Rejections.find, hct]
  · show (Rejections.known (Known.discordApiError e)).find discordApiErrorTag
      = some (CauseVal.knownCause e)
    simp [Rejections.find]

/-- Witness for `find_depth_first_order`: a combined rejection whose two
subtrees both carry a cause of tag 3 yields the left cause; a single custom
cause of tag 3 and the known cause are both found; `NotFound` yields
`none`. -/
theorem find_depth_first_order_witness :
    Rejection.find ⟨Reason.other (Rejections.combined
        (Rejections.custom ⟨3, "left"⟩) (Rejections.custom ⟨3, "right"⟩))⟩ 3
        = Rejections.find (Rejections.custom ⟨3, "left"⟩) 3
      ∧ Rejection.find ⟨Reason.other (Rejections.custom ⟨3, "left"⟩)⟩ 3
        = some (CauseVal.customCause ⟨3, "left"⟩)
      ∧ Rejection.find ⟨Reason.other (Rejections.known
          (Known.discordApiError ⟨⟩))⟩ discordApiErrorTag
        = some (CauseVal.knownCause ⟨⟩)
      ∧ Rejection.find ⟨Reason.notFound⟩ 3 = none := by
  have h := find_depth_first_order (Rejections.custom ⟨3, "left"⟩)
    (Rejections.custom ⟨3, "right"⟩) 3 ⟨3, "left"⟩ ⟨⟩
  exact ⟨h.1 (by rfl) (by rfl), h.2.1 (by rfl), h.2.2.1, h.2.2.2 3⟩

/-! ## Context scope (`src/context.rs`)

The source declares `scoped_thread_local!(static CONTEXT: RefCell<Context>)`
and wraps the `scoped_tls` operations: `set(r, func)` installs `r` as the
ambient cell for the dynamic extent of `func` and restores the previous
pointer when `func` returns; `is_set()` tests whether a value is installed;
`with(func)` panics when nothing is installed and otherwise passes a mutable
borrow of the ambient `Context` to `func`. The ambient cell is modelled by
explicit state passing: a state of type `Option Context` threads through the
computation, `none` meaning no scope is entered, and the panic of
`CONTEXT.with` on an empty cell is modelled by the `none` result. -/

/-- Embeds `pub struct Context {}` from `src/context.rs`. -/
structure Context where
  mk ::

/-- Embeds `context::is_set` (the spec's `is_entered()`): whether the
scoped cell currently holds a context. -/
def context.is_set (s : Option Context) : Bool :=
  s.isSome

/-- Embeds `context::set` (the spec's `enter`): installs `some r` as the
ambient cell for the dynamic extent of `body`, runs `body`, and restores the
previously ambient cell (`prev`) when it returns. `body` is a state-passing
computation over the ambient cell; its final cell state is discarded because
`scoped_tls` restores the previous pointer on every exit path. Returns
`body`'s result together with the cell state after `set` returns. -/
def context.set {U : Type} (prev : Option Context) (r : Context)
    (body : Option Context → U × Option Context) : U × Option Context :=
  ((body (some r)).1, prev)

/-- Embeds `context::with` (the spec's `with_mut`): `none` when no scope is
entered — modelling the `scoped_tls` panic, a programmer-error abort that
produces no value — and otherwise the closure's result paired with the
mutated ambient cell. -/
def context.with_mut {R : Type} (s : Option Context)
    (f : Context → Context × R) : Option (R × Option Context) :=
  match s with
  | none => none
  | some c => some ((f c).2, some (f c).1)

/-- C5: when no context scope is entered, `with_mut` produces no value (the
`scoped_tls` panic — a programmer-error abort, not a recoverable
`Rejection`, which does not even occur in its type); when a scope holding
`ctx` is entered, `with_mut` applies the closure to exactly that ambient
`Context`, returns the closure's result, and stores back the mutated
context. -/
theorem with_mut_contract {R : Type} (ctx : Context)
    (f : Context → Context × R) :
    context.with_mut none f = none
      ∧ context.with_mut (some ctx) f = some ((f ctx).2, some (f ctx).1) :=
  ⟨rfl, rfl⟩

/-- C6: starting from no entered scope, `is_entered` is false before
`enter (= context.set)` and false again on the cell state after it returns;
during `body`'s execution the ambient cell is exactly `some ctx` — the very
instance passed to `enter` — so `is_entered` is true there and `with_mut`
run inside `body` observes `ctx` itself. -/
theorem context_scope_lifecycle {U R : Type} (ctx : Context)
    (body : Option Context → U × Option Context) :
    context.is_set none = false
      ∧ (context.set none ctx body).2 = none
      ∧ context.is_set (context.set none ctx body).2 = false
      ∧ (context.set none ctx body).1 = (body (some ctx)).1
      ∧ context.is_set (some ctx) = true
      ∧ (∀ f : Context → Context × R,
          context.with_mut (some ctx) f = some ((f ctx).2, some (f ctx).1)) :=
  ⟨rfl, rfl, rfl, rfl, rfl, fun _ => rfl⟩

/-! ## Command definition and builder (`src/command.rs`) -/

/-- Embeds `pub struct Snowflake { inner: u64 }` from
`src/model/snowflake.rs`; `inner` is a `u64`, kept in `Nat` with explicit
`% 2 ^ 64` where wrapping matters. -/
structure Snowflake where
  inner : Nat
deriving DecidableEq, Repr

/-- Embeds `enum ChoiceValue { String(String), Integer(i64), Double(f64) }`.
The `f64` payload is carried opaquely as a `Float`; no claim inspects it. -/
inductive ChoiceValue where
  | string (s : String)
  | integer (i : Int)
  | double (d : Float)

/-- Embeds `pub struct OptionChoice { name: String, value: ChoiceValue }`. -/
structure OptionChoice where
  name : String
  value : ChoiceValue

/-- Embeds `enum CommandOptionType`. -/
inductive CommandOptionType where
  | subCommand
  | subCommandGroup
  | string
  | integer
  | boolean
  | user
  | channel
  | role
  | mentionable
  | number
deriving DecidableEq, Repr

/-- Embeds `pub struct CommandOption` (type tag, name, description, required
flag, choice list and nested sub-options). -/
inductive CommandOption where
  | mk (ty : CommandOptionType) (name : String) (description : String)
      (required : Bool) (choices : List OptionChoice)
      (options : List CommandOption)

/-- Embeds `pub struct CommandMeta`. -/
structure CommandMeta where
  name : String
  description : String
  guild_id : Option Snowflake
  default_permission : Bool

/-- Embeds the handler slot `executor: fn() -> F` where
`F: Future<Output = Result<(), Box<dyn Error>>>`: a thunk returning either
success or an opaque boxed error (carried as a `String`). -/
def Executor : Type :=
  Unit → Except String Unit

/-- Embeds the builder's initial handler `|| async { Ok(()) }`. -/
def defaultExecutor : Executor :=
  fun _ => Except.ok ()

/-- Embeds `pub struct ChatInputCommand<F> { meta, executor, options }`. -/
structure ChatInputCommand where
  meta : CommandMeta
  executor : Executor
  options : List CommandOption

/-- Embeds `pub struct ChatInputCommandBuilder<F> { inner: ChatInputCommand<F> }`. -/
structure ChatInputCommandBuilder where
  inner : ChatInputCommand

/-- Embeds `ChatInputCommandBuilder::new`: empty name and description, no
guild id, default permission false, no options, trivial executor. -/
def ChatInputCommandBuilder.new : ChatInputCommandBuilder :=
  ⟨{ meta := { name := "", description := "", guild_id := none,
               default_permission := false },
     executor := defaultExecutor,
     options := [] }⟩

/-- Embeds `ChatInputCommandBuilder::build` (`src/command.rs` lines
181–183): `Ok(self.inner)`, unconditionally. The `Box<dyn Error>` error
slot of the `Result` is carried as a `String`. -/
def ChatInputCommandBuilder.build (b : ChatInputCommandBuilder) :
    Except String ChatInputCommand :=
  Except.ok b.inner

/-- Embeds `ChatInputCommandBuilder::set_name` (the `AsRef<str>` argument is
taken already converted to its owned string). -/
def ChatInputCommandBuilder.set_name (b : ChatInputCommandBuilder)
    (name : String) : ChatInputCommandBuilder :=
  ⟨{ b.inner with meta := { b.inner.meta with name := name } }⟩

/-- Embeds `ChatInputCommandBuilder::set_description`. -/
def ChatInputCommandBuilder.set_description (b : ChatInputCommandBuilder)
    (description : String) : ChatInputCommandBuilder :=
  ⟨{ b.inner with meta := { b.inner.meta with description := description } }⟩

/-- Embeds `ChatInputCommandBuilder::set_guild_id` (the `Into<Snowflake>`
argument is taken already converted). -/
def ChatInputCommandBuilder.set_guild_id (b : ChatInputCommandBuilder)
    (guild_id : Snowflake) : ChatInputCommandBuilder :=
  ⟨{ b.inner with meta := { b.inner.meta with guild_id := some guild_id } }⟩

/-- Embeds `ChatInputCommandBuilder::set_default_permission`. -/
def ChatInputCommandBuilder.set_default_permission
    (b : ChatInputCommandBuilder) (default_permission : Bool) :
    ChatInputCommandBuilder :=
  ⟨{ b.inner with
      meta := { b.inner.meta with default_permission := default_permission } }⟩

/-- C4 counterexample: the freshly constructed builder has the empty string
as its accumulated name, yet `build` returns the built command, not an
error — refuting "build() returns an error when the name is empty". -/
theorem build_empty_name_cex :
    ChatInputCommandBuilder.new.inner.meta.name = ""
      ∧ ChatInputCommandBuilder.new.build
          = Except.ok ChatInputCommandBuilder.new.inner :=
  ⟨rfl, rfl⟩

/-- C4 (amended): `build` performs no validation at all: for every builder —
empty name or not, whatever the option list — it returns `Ok` with the
accumulated command; validation is deferred to the registration layer. -/
theorem build_always_ok (b : ChatInputCommandBuilder) :
    b.build = Except.ok b.inner :=
  rfl

/-- C8: each setter is a plain field setter: it stores its argument in its
one target field and leaves every other accumulated field — the remaining
meta fields, the option list and the handler — unchanged, and performs no
validation (each setter is a total function on all builder states). -/
theorem builder_setters_frame (b : ChatInputCommandBuilder)
    (n d : String) (g : Snowflake) (p : Bool) :
    (b.set_name n).inner.meta.name = n
      ∧ (b.set_name n).inner.meta.description = b.inner.meta.description
      ∧ (b.set_name n).inner.meta.guild_id = b.inner.meta.guild_id
      ∧ (b.set_name n).inner.meta.default_permission
          = b.inner.meta.default_permission
      ∧ (b.set_name n).inner.options = b.inner.options
      ∧ (b.set_name n).inner.executor = b.inner.executor
      ∧ (b.set_description d).inner.meta.description = d
      ∧ (b.set_description d).inner.meta.name = b.inner.meta.name
      ∧ (b.set_description d).inner.meta.guild_id = b.inner.meta.guild_id
      ∧ (b.set_description d).inner.meta.default_permission
          = b.inner.meta.default_permission
      ∧ (b.set_description d).inner.options = b.inner.options
      ∧ (b.set_description d).inner.executor = b.inner.executor
      ∧ (b.set_guild_id g).inner.meta.guild_id = some g
      ∧ (b.set_guild_id g).inner.meta.name = b.inner.meta.name
      ∧ (b.set_guild_id g).inner.meta.description = b.inner.meta.description
      ∧ (b.set_guild_id g).inner.meta.default_permission
          = b.inner.meta.default_permission
      ∧ (b.set_guild_id g).inner.options = b.inner.options
      ∧ (b.set_guild_id g).inner.executor = b.inner.executor
      ∧ (b.set_default_permission p).inner.meta.default_permission = p
      ∧ (b.set_default_permission p).inner.meta.name = b.inner.meta.name
      ∧ (b.set_default_permission p).inner.meta.description
          = b.inner.meta.description
      ∧ (b.set_default_permission p).inner.meta.guild_id
          = b.inner.meta.guild_id
      ∧ (b.set_default_permission p).inner.options = b.inner.options
      ∧ (b.set_default_permission p).inner.executor = b.inner.executor :=
  ⟨rfl, rfl, rfl, rfl, rfl, rfl, rfl, rfl, rfl, rfl, rfl, rfl, rfl, rfl,
   rfl, rfl, rfl, rfl, rfl, rfl, rfl, rfl, rfl, rfl⟩

/-! ## Snowflake timestamps (`src/model/snowflake.rs`)

A `DateTime<Utc>` of whole-millisecond precision is represented by its
millisecond UNIX timestamp as a `Nat`. `u64` arithmetic carries an explicit
`% 2 ^ 64` where bits can be shifted out; `u64::shl` discards overflowing
value bits. -/

/-- Embeds `pub const DISCORD_EPOCH: u64 = 1420070400000`. -/
def DISCORD_EPOCH : Nat := 1420070400000

/-- Embeds `Snowflake::new(dt)`: `delta = dt.timestamp_millis() as u64 -
DISCORD_EPOCH; inner = delta << 22`, where the left shift in `u64` keeps
only the low 64 bits. Defined for `ms ≥ DISCORD_EPOCH` (below that the
`u64` subtraction would already overflow). -/
def Snowflake.new (ms : Nat) : Snowflake :=
  ⟨((ms - DISCORD_EPOCH) * 2 ^ 22) % 2 ^ 64⟩

/-- Embeds `Snowflake::timestamp()`: `millis = (inner >> 22) +
DISCORD_EPOCH`, split into seconds and nanoseconds to build the `DateTime`;
the returned `DateTime` is represented by its millisecond timestamp
`secs * 1000 + nanos / 1000000`. -/
def Snowflake.timestamp (s : Snowflake) : Nat :=
  let millis := s.inner / 2 ^ 22 + DISCORD_EPOCH
  let secs := millis / 1000
  let nanos := (millis % 1000) * 1000000
  secs * 1000 + nanos / 1000000

/-- C10 counterexample: at the whole-millisecond instant
`DISCORD_EPOCH + 2 ^ 42` (a valid `DateTime`, around year 2154, with
timestamp ≥ `DISCORD_EPOCH`), the shifted delta loses its single set bit
off the top of the `u64`, and `timestamp` of the constructed snowflake
comes back as `DISCORD_EPOCH`, not the original instant — refuting the
round trip as stated for every datetime ≥ `DISCORD_EPOCH`. -/
theorem snowflake_roundtrip_overflow_cex :
    DISCORD_EPOCH ≤ 5818116911104
      ∧ Snowflake.new 5818116911104 = ⟨0⟩
      ∧ (Snowflake.new 5818116911104).timestamp = 1420070400000
      ∧ (Snowflake.new 5818116911104).timestamp ≠ 5818116911104 := by
  refine ⟨by norm_num [DISCORD_EPOCH], ?_, ?_, ?_⟩ <;>
    simp [Snowflake.new, Snowflake.timestamp, DISCORD_EPOCH]

/-- C10 (amended): the round trip holds on the representable range: for
every whole-millisecond UTC datetime whose millisecond timestamp `ms`
satisfies `DISCORD_EPOCH ≤ ms < DISCORD_EPOCH + 2 ^ 42` (so the shifted
delta fits in the `u64`), `(Snowflake.new ms).timestamp = ms`. -/
theorem snowflake_roundtrip_in_range (ms : Nat)
    (h1 : DISCORD_EPOCH ≤ ms) (h2 : ms < DISCORD_EPOCH + 2 ^ 42) :
    (Snowflake.new ms).timestamp = ms := by
  unfold Snowflake.new Snowflake.timestamp
  unfold DISCORD_EPOCH at h1 h2 ⊢
  have e22 : (2 : Nat) ^ 22 = 4194304 := by norm_num
  have e42 : (2 : Nat) ^ 42 = 4398046511104 := by norm_num
  have e64 : (2 : Nat) ^ 64 = 18446744073709551616 := by norm_num
  rw [e22, e64] at *
  rw [e42] at h2
  simp only
  omega

/-- Witness for `snowflake_roundtrip_in_range` at the instant
2022-02-08 11:42:11.922 UTC (`ms = 1644320531922`), the round trip value of
the source's own `test_snowflake_new`. -/
theorem snowflake_roundtrip_in_range_witness :
    DISCORD_EPOCH ≤ 1644320531922
      ∧ 1644320531922 < DISCORD_EPOCH + 2 ^ 42
      ∧ (Snowflake.new 1644320531922).timestamp = 1644320531922 :=
  ⟨by norm_num [DISCORD_EPOCH], by norm_num [DISCORD_EPOCH],
   snowflake_roundtrip_in_range 1644320531922 (by norm_num [DISCORD_EPOCH])
     (by norm_num [DISCORD_EPOCH])⟩

/-! ## String argument filter (`src/filters/arg.rs`)

`StringArgument::filter` is `todo!()` in the source and the filter core it
plugs into (`src/filter.rs`, `src/generic.rs`) is not part of the source
sample, so the filter's evaluation is modelled from the spec (§4.4 and §8)
and checked against that model. -/

/-- Embeds warp-style `One<T>` of the absent `src/generic.rs`, the arity-1
extraction tuple `(T,)` (named apart from Mathlib's `One` class). -/
@[reducible] def OneTuple (α : Type) : Type := α

/-- Modelled from the spec: the decoded invocation's option values — the
"coerced-or-raw value" of a named option, which may or may not be a
string. -/
inductive OptionValue where
  | str (s : String)
  | int (i : Int)
  | boolean (b : Bool)
deriving DecidableEq, Repr

/-- Modelled from the spec: locating "the named argument within the decoded
invocation's option list" — the first pair whose name matches. -/
def lookupArg (name : String) : List (String × OptionValue) → Option OptionValue
  | [] => none
  | (n, v) :: rest => if n = name then some v else lookupArg name rest

/-- The `TypeId` tag of the "missing required argument" cause. -/
def missingRequiredArgumentTag : Nat := 1

/-- The `TypeId` tag of the "type mismatch" cause. -/
def typeMismatchTag : Nat := 2

/-- Embeds `pub struct StringArgument { name, description }`. -/
structure StringArgument where
  name : String
  description : String
deriving DecidableEq, Repr

/-- Embeds `filters::arg::string`. -/
def string_arg (name description : String) : StringArgument :=
  ⟨name, description⟩

/-- Modelled from the spec: the evaluation of `StringArgument` against the
current invocation's option list — `StringArgument::filter` is `todo!()` in
`src/filters/arg.rs`, so this follows spec §4.4: it "fails with a 'missing
required argument' rejection if absent and required" (the source descriptor
carries no required flag, so the string argument is modelled as required),
"fails with a 'type mismatch' rejection if present but not coercible to the
declared type tag", and "otherwise succeeds with the coerced value as a
single-element extraction tuple". The rejection causes carry the argument's
name as their payload. -/
def StringArgument.filterEval (a : StringArgument)
    (inv : List (String × OptionValue)) : Except Rejection (OneTuple String) :=
  match lookupArg a.name inv with
  | none =>
      Except.error (Rejection.custom ⟨missingRequiredArgumentTag, a.name⟩)
  | some (OptionValue.str s) => Except.ok s
  | some _ =>
      Except.error (Rejection.custom ⟨typeMismatchTag, a.name⟩)

/-- C3: evaluating the string argument filter against the current
invocation fails with the "missing required argument" rejection when the
named argument is absent, fails with the "type mismatch" rejection when the
argument is present but not a string, and succeeds with the argument's
string as its sole extracted value (an arity-1 tuple) when it is present
and a string. -/
theorem string_argument_filter_cases (a : StringArgument)
    (inv : List (String × OptionValue)) (s : String) (v : OptionValue) :
    (lookupArg a.name inv = none →
        a.filterEval inv
          = Except.error
              (Rejection.custom ⟨missingRequiredArgumentTag, a.name⟩))
      ∧ (lookupArg a.name inv = some v → (∀ w, v ≠ OptionValue.str w) →
        a.filterEval inv
          = Except.error (Rejection.custom ⟨typeMismatchTag, a.name⟩))
      ∧ (lookupArg a.name inv = some (OptionValue.str s) →
        a.filterEval inv = Except.ok (s : OneTuple String)) := by
  refine ⟨?_, ?_, ?_⟩
  · intro h
    simp [StringArgument.filterEval, h]
  · intro h hv
    cases v with
    | str w => exact absurd rfl (hv w)
    | int i => simp [StringArgument.filterEval, h]
    | boolean x => simp [StringArgument.filterEval, h]
  · intro h
    simp [StringArgument.filterEval, h]

/-- Witness for `string_argument_filter_cases`: the filter for a required
`"text"` argument run against an invocation without it, against one carrying
`text = 3`, and against one carrying `text = "hi"`. -/
theorem string_argument_filter_cases_witness :
    (string_arg "text" "d").filterEval []
        = Except.error
            (Rejection.custom ⟨missingRequiredArgumentTag, "text"⟩)
      ∧ (string_arg "text" "d").filterEval [("text", OptionValue.int 3)]
        = Except.error (Rejection.custom ⟨typeMismatchTag, "text"⟩)
      ∧ (string_arg "text" "d").filterEval [("text", OptionValue.str "hi")]
        = Except.ok ("hi" : OneTuple String) := by
  refine ⟨?_, ?_, ?_⟩
  · exact (string_argument_filter_cases (string_arg "text" "d") [] "hi"
      (OptionValue.int 3)).1 (by rfl)
  · exact (string_argument_filter_cases (string_arg "text" "d")
      [("text", OptionValue.int 3)] "hi" (OptionValue.int 3)).2.1 (by rfl)
      (by intro w hw; cases hw)
  · exact (string_argument_filter_cases (string_arg "text" "d")
      [("text", OptionValue.str "hi")] "hi" (OptionValue.int 3)).2.2 (by rfl)
